import Mathlib

/-
Verification of the summarization middleware in `summaryagent.py`.

The embedded code is the function `summary_middleware` (lines 20-76 of
`src/summaryagent.py`):
  * `msgs = list(request.messages) or []` copies the request's message list;
  * `if not msgs: return handler(request)` — empty fast path, the call is
    not inside a try block;
  * `if len(msgs) > SUMMARY_THRESHOLD` (threshold = 3): the last 3 messages
    are kept (`msgs[-SUMMARY_THRESHOLD:]`), the rest
    (`msgs[:-SUMMARY_THRESHOLD]`) is joined with newlines using
    `getattr(m, "content", str(m))` per message, sent to the summarizer in a
    single prompt, and replaced by one
    `SystemMessage(content=f"[Summary] {summary_text}")`; the summarizer
    call is NOT inside a try block, so a summarizer error propagates;
  * `new_messages = compressed + msgs`;
  * `try: return handler(request.override(messages=new_messages))
     except Exception as e: print(...)` — on handler failure the function
    prints and falls off the end, returning None; it does not retry.

Remote calls (the summarizer and the downstream handler) are modelled as
function parameters returning `Except String String`; a Python exception is
the `Except.error` case. The middleware outcome distinguishes a returned
response, the implicit `None` return after a swallowed handler exception,
and an exception propagating out of the middleware. A `Trace` records the
prompts sent to the summarizer and the message lists passed to the handler,
in order, so that claims about the number of remote calls and about the
forwarded list are statable.
-/

/-- Message roles as used by the script (`HumanMessage`, `AIMessage`,
`SystemMessage`). -/
inductive Role where
  | user
  | assistant
  | system
deriving DecidableEq, Repr

/-- A chat message. `content?` models Python attribute lookup of `content`
(`none` = the attribute is absent); `strRepr` models `str(m)`, the string
rendering every Python object has. -/
structure Msg where
  role : Role
  content? : Option String
  strRepr : String
deriving DecidableEq, Repr

/-- Line 14: `SUMMARY_THRESHOLD = 3`. -/
def SUMMARY_THRESHOLD : Nat := 3

/-- Line 52: `getattr(m, "content", str(m))`. -/
def contentOrStr (m : Msg) : String :=
  m.content?.getD m.strRepr

/-- Line 52: `"\n".join(getattr(m, "content", str(m)) for m in messages_to_summarize)`. -/
def chunkTextOf (head : List Msg) : String :=
  String.intercalate "\n" (head.map contentOrStr)

/-- Line 56: the single summarization prompt built around the joined chunk text. -/
def summarizerPrompt (chunkText : String) : String :=
  "Summarize this conversation briefly in 1-2 sentences:\n" ++ chunkText

/-- Line 61: `SystemMessage(content=...)` — a message whose `content`
attribute is present. -/
def systemMsg (t : String) : Msg :=
  ⟨Role.system, some t, t⟩

/-- Observable remote interactions of one middleware invocation:
the prompts sent to the summarizer model and the message lists passed to
the downstream handler, in call order. -/
structure Trace where
  summarizerCalls : List String
  forwardedLists : List (List Msg)
deriving DecidableEq, Repr

/-- What the Python function does from the caller's point of view:
returns a response, returns `None` (after the `except` branch printed the
error and the function fell off the end), or lets an exception propagate. -/
inductive Outcome where
  | ok (resp : String)
  | returnedNone
  | raised (e : String)
deriving DecidableEq, Repr

/-- Lines 41-68 condensed to the value of `new_messages`
(`compressed + msgs` after the threshold branch), for a summarizer that
returns `summarize prompt` on prompt `prompt`. This is the compaction
policy applied to the message list. -/
def compact (summarize : String → String) (msgs : List Msg) : List Msg :=
  if SUMMARY_THRESHOLD < msgs.length then
    [systemMsg ("[Summary] " ++ summarize (summarizerPrompt
        (chunkTextOf (msgs.take (msgs.length - SUMMARY_THRESHOLD)))))]
      ++ msgs.drop (msgs.length - SUMMARY_THRESHOLD)
  else
    msgs

/-- The middleware, lines 20-76. Control flow, in order: the empty fast
path (lines 34-35, handler called outside any try block); the threshold
branch (lines 41-64) whose summarizer call may raise; the forwarding call
in a try block whose except branch prints and returns `None`
(lines 71-76). The two non-empty branches both end at the same
`try: return handler(request.override(messages=new_messages))`; they are
written out separately here with their respective `new_messages` values. -/
def summary_middleware (summarize : String → Except String String)
    (handler : List Msg → Except String String)
    (request : List Msg) : Outcome × Trace :=
  if request = [] then
    match handler request with
    | .ok r => (.ok r, ⟨[], [request]⟩)
    | .error e => (.raised e, ⟨[], [request]⟩)
  else if SUMMARY_THRESHOLD < request.length then
    let prompt := summarizerPrompt
      (chunkTextOf (request.take (request.length - SUMMARY_THRESHOLD)))
    match summarize prompt with
    | .error e => (.raised e, ⟨[prompt], []⟩)
    | .ok summaryText =>
      let newMessages :=
        [systemMsg ("[Summary] " ++ summaryText)]
          ++ request.drop (request.length - SUMMARY_THRESHOLD)
      match handler newMessages with
      | .ok r => (.ok r, ⟨[prompt], [newMessages]⟩)
      | .error _ => (.returnedNone, ⟨[prompt], [newMessages]⟩)
  else
    match handler request with
    | .ok r => (.ok r, ⟨[], [request]⟩)
    | .error _ => (.returnedNone, ⟨[], [request]⟩)

/-- Explicit-state view of the wrapper for the frame property: the caller's
message list is threaded through the call. Line 31 (`list(request.messages)`)
copies the list, line 72 (`request.override(messages=new_messages)`) builds
a new request object, and no statement in the function writes to the
caller's list, so the embedding returns it unchanged alongside the result. -/
def summary_middleware_frame (summarize : String → Except String String)
    (handler : List Msg → Except String String)
    (request : List Msg) : (Outcome × Trace) × List Msg :=
  (summary_middleware summarize handler request, request)

/-- A user message whose `content` attribute is present, as built by
`HumanMessage(content=t)` in the driver loop. -/
def mkUser (t : String) : Msg :=
  ⟨Role.user, some t, t⟩

/-- Concrete four-message history used as a test input. -/
def exFour : List Msg :=
  [mkUser "a", mkUser "b", mkUser "c", mkUser "d"]

/-- Concrete five-turn history for Scenario B. -/
def exFive : List Msg :=
  [mkUser "t1", mkUser "t2", mkUser "t3", mkUser "t4", mkUser "t5"]

/-- Helper: on a non-empty list over the threshold with a successful
summarizer, the trace records one summarizer call (over the head) and one
forwarded list (the summary message followed by the kept tail). -/
lemma summary_middleware_trace_gt
    (summarize : String → Except String String)
    (handler : List Msg → Except String String)
    (msgs : List Msg) (h : SUMMARY_THRESHOLD < msgs.length)
    (s : String)
    (hs : summarize (summarizerPrompt
        (chunkTextOf (msgs.take (msgs.length - SUMMARY_THRESHOLD)))) = .ok s) :
    (summary_middleware summarize handler msgs).2 =
      ⟨[summarizerPrompt
          (chunkTextOf (msgs.take (msgs.length - SUMMARY_THRESHOLD)))],
        [systemMsg ("[Summary] " ++ s)
          :: msgs.drop (msgs.length - SUMMARY_THRESHOLD)]⟩ := by
  have hne : msgs ≠ [] := by
    intro e
    rw [e] at h
    simp [SUMMARY_THRESHOLD] at h
  unfold summary_middleware
  rw [if_neg hne, if_pos h]
  simp only [hs]
  cases handler ([systemMsg ("[Summary] " ++ s)]
      ++ msgs.drop (msgs.length - SUMMARY_THRESHOLD)) <;> rfl

/-- Helper: on a non-empty list at or below the threshold the trace records
no summarizer call and forwards the list itself. -/
lemma summary_middleware_trace_le
    (summarize : String → Except String String)
    (handler : List Msg → Except String String)
    (msgs : List Msg) (hne : msgs ≠ [])
    (h : ¬ SUMMARY_THRESHOLD < msgs.length) :
    (summary_middleware summarize handler msgs).2 = ⟨[], [msgs]⟩ := by
  unfold summary_middleware
  rw [if_neg hne, if_neg h]
  cases handler msgs <;> rfl

/-- Helper: below or at the threshold the compaction policy is the
identity. -/
lemma compact_of_le (g : String → String) (msgs : List Msg)
    (h : msgs.length ≤ SUMMARY_THRESHOLD) :
    compact g msgs = msgs := by
  unfold compact
  rw [if_neg (Nat.not_lt.mpr h)]

/-- C1: for every message list with more than SUMMARY_THRESHOLD messages,
single-shot compaction splits at `length - SUMMARY_THRESHOLD`, joins the
text of every message before that index with newlines in original order
into one blob sent as a single summarization request, and the list
forwarded to the handler is one synthetic system-role summary message
whose text carries the `[Summary] ` prefix, followed by the last
SUMMARY_THRESHOLD messages of the input in their original order. -/
theorem single_shot_compaction
    (g : String → String) (handler : List Msg → Except String String)
    (msgs : List Msg) (h : SUMMARY_THRESHOLD < msgs.length) :
    (summary_middleware (fun s => Except.ok (g s)) handler msgs).2.summarizerCalls
        = [summarizerPrompt (String.intercalate "\n"
            ((msgs.take (msgs.length - SUMMARY_THRESHOLD)).map contentOrStr))]
    ∧ (summary_middleware (fun s => Except.ok (g s)) handler msgs).2.forwardedLists
        = [systemMsg ("[Summary] " ++ g (summarizerPrompt (String.intercalate "\n"
            ((msgs.take (msgs.length - SUMMARY_THRESHOLD)).map contentOrStr))))
            :: msgs.drop (msgs.length - SUMMARY_THRESHOLD)]
    ∧ (systemMsg ("[Summary] " ++ g (summarizerPrompt (String.intercalate "\n"
            ((msgs.take (msgs.length - SUMMARY_THRESHOLD)).map contentOrStr))))).role
        = Role.system
    ∧ (msgs.drop (msgs.length - SUMMARY_THRESHOLD)).length = SUMMARY_THRESHOLD
    ∧ List.IsSuffix (msgs.drop (msgs.length - SUMMARY_THRESHOLD)) msgs := by
  have htr := summary_middleware_trace_gt (fun s => Except.ok (g s)) handler msgs h
    (g (summarizerPrompt (chunkTextOf (msgs.take (msgs.length - SUMMARY_THRESHOLD))))) rfl
  refine ⟨?_, ?_, rfl, ?_, List.drop_suffix _ _⟩
  · rw [htr]
    rfl
  · rw [htr]
    rfl
  · rw [List.length_drop]
    simp only [SUMMARY_THRESHOLD] at h ⊢
    omega

/-- Witness for C1 at the concrete four-message history. -/
theorem single_shot_compaction_witness :
    SUMMARY_THRESHOLD < exFour.length ∧
    (summary_middleware (fun s => Except.ok s) (fun _ => Except.ok "r") exFour).2.forwardedLists
      = [systemMsg ("[Summary] " ++ summarizerPrompt (String.intercalate "\n"
          ((exFour.take (exFour.length - SUMMARY_THRESHOLD)).map contentOrStr)))
          :: exFour.drop (exFour.length - SUMMARY_THRESHOLD)] :=
  ⟨by decide,
    (single_shot_compaction (fun s => s) (fun _ => Except.ok "r") exFour (by decide)).2.1⟩

/-- C2: for every non-empty message list of length at most
SUMMARY_THRESHOLD the middleware makes no summarizer call and forwards the
input unchanged; the compaction policy is the identity there, hence
re-running it on its own output is a no-op. -/
theorem below_threshold_noop
    (g : String → String)
    (summarize : String → Except String String)
    (handler : List Msg → Except String String)
    (msgs : List Msg) (hne : msgs ≠ []) (h : msgs.length ≤ SUMMARY_THRESHOLD) :
    (summary_middleware summarize handler msgs).2.summarizerCalls = []
    ∧ (summary_middleware summarize handler msgs).2.forwardedLists = [msgs]
    ∧ compact g msgs = msgs
    ∧ compact g (compact g msgs) = compact g msgs := by
  have htr := summary_middleware_trace_le summarize handler msgs hne (Nat.not_lt.mpr h)
  have hc := compact_of_le g msgs h
  exact ⟨by rw [htr], by rw [htr], hc, by simp [hc]⟩

/-- Concrete one-message history. -/
def exOne : List Msg := [mkUser "x"]

/-- Witness for C2 at the concrete one-message history. -/
theorem below_threshold_noop_witness :
    exOne ≠ [] ∧ exOne.length ≤ SUMMARY_THRESHOLD ∧
    ((summary_middleware (fun _ => Except.error "e") (fun _ => Except.ok "r") exOne).2.summarizerCalls = []
     ∧ (summary_middleware (fun _ => Except.error "e") (fun _ => Except.ok "r") exOne).2.forwardedLists = [exOne]
     ∧ compact (fun s => s) exOne = exOne
     ∧ compact (fun s => s) (compact (fun s => s) exOne) = compact (fun s => s) exOne) :=
  ⟨by decide, by decide,
    below_threshold_noop (fun s => s) (fun _ => Except.error "e")
      (fun _ => Except.ok "r") exOne (by decide) (by decide)⟩

/-- C3: the summarizer call at lines 55-57 is not inside any try block, so
when the summarizer fails on a 4-message history the middleware lets the
exception propagate to its caller; there is no local truncation fallback
and the handler is never reached. -/
theorem summarizer_failure_propagates :
    (summary_middleware (fun _ => Except.error "summarizer down")
        (fun _ => Except.ok "resp") exFour).1 = Outcome.raised "summarizer down"
    ∧ (summary_middleware (fun _ => Except.error "summarizer down")
        (fun _ => Except.ok "resp") exFour).2.forwardedLists = [] := by
  exact ⟨rfl, rfl⟩

/-- Handler that fails on the compacted list but would succeed on the
original four-message history, probing the retry behaviour of Scenario D. -/
def retryProbeHandler : List Msg → Except String String :=
  fun l => if l = exFour then Except.ok "recovered" else Except.error "model down"

/-- C4: when forwarding the compacted list fails, the except branch at
lines 73-76 only prints and returns None; the handler is called exactly
once, never with the original list, even though a retry with the original
list would have succeeded. -/
theorem forwarding_failure_not_retried :
    (summary_middleware (fun s => Except.ok s) retryProbeHandler exFour).1
        = Outcome.returnedNone
    ∧ (summary_middleware (fun s => Except.ok s) retryProbeHandler exFour).2.forwardedLists.length
        = 1
    ∧ exFour ∉ (summary_middleware (fun s => Except.ok s) retryProbeHandler exFour).2.forwardedLists
    ∧ retryProbeHandler exFour = Except.ok "recovered" := by
  refine ⟨rfl, rfl, by decide, rfl⟩

/-- C5: the output of the compaction policy is the synthetic summary
messages (all of role system) followed by the kept tail, a suffix of the
input in its original order; this also holds with zero summaries. -/
theorem compact_ordering_invariant (g : String → String) (msgs : List Msg) :
    ∃ summaries : List Msg,
      (∀ m ∈ summaries, m.role = Role.system)
      ∧ compact g msgs = summaries ++ msgs.drop (msgs.length - SUMMARY_THRESHOLD)
      ∧ List.IsSuffix (msgs.drop (msgs.length - SUMMARY_THRESHOLD)) msgs := by
  by_cases h : SUMMARY_THRESHOLD < msgs.length
  · refine ⟨[systemMsg ("[Summary] " ++ g (summarizerPrompt
        (chunkTextOf (msgs.take (msgs.length - SUMMARY_THRESHOLD)))))],
      ?_, ?_, List.drop_suffix _ _⟩
    · intro m hm
      rw [List.mem_singleton] at hm
      rw [hm]
      rfl
    · unfold compact
      rw [if_pos h]
  · have hle := Nat.not_lt.mp h
    have h0 : msgs.length - SUMMARY_THRESHOLD = 0 := Nat.sub_eq_zero_of_le hle
    refine ⟨[], by simp, ?_, List.drop_suffix _ _⟩
    rw [compact_of_le g msgs hle, h0, List.drop_zero, List.nil_append]

/-- C6 counterexample: on a concrete five-turn history the compaction
result has four messages — the summary plus turns 3, 4 and 5 — so it is
not of the shape [summary, turn 4, turn 5], which would have three. -/
theorem scenarioB_counterexample :
    (compact (fun s => s) exFive).length = 4
    ∧ (compact (fun s => s) exFive).length ≠ 3
    ∧ mkUser "t3" ∈ compact (fun s => s) exFive := by
  decide

/-- C6 amended: for a five-turn history with threshold 3 in single-shot
mode, the forwarded result is [1 summary turn, turn 3, turn 4, turn 5],
produced by exactly one summarizer call whose input covers turns 1-2. -/
theorem scenarioB_amended (g : String → String)
    (handler : List Msg → Except String String) (m1 m2 m3 m4 m5 : Msg) :
    (summary_middleware (fun s => Except.ok (g s)) handler
        [m1, m2, m3, m4, m5]).2.summarizerCalls
      = [summarizerPrompt (chunkTextOf [m1, m2])]
    ∧ (summary_middleware (fun s => Except.ok (g s)) handler
        [m1, m2, m3, m4, m5]).2.forwardedLists
      = [[systemMsg ("[Summary] " ++ g (summarizerPrompt (chunkTextOf [m1, m2]))),
          m3, m4, m5]] := by
  have h : SUMMARY_THRESHOLD < ([m1, m2, m3, m4, m5] : List Msg).length := by
    simp [SUMMARY_THRESHOLD]
  have htr := summary_middleware_trace_gt (fun s => Except.ok (g s)) handler
    [m1, m2, m3, m4, m5] h
    (g (summarizerPrompt (chunkTextOf (List.take (([m1, m2, m3, m4, m5] : List Msg).length
      - SUMMARY_THRESHOLD) [m1, m2, m3, m4, m5])))) rfl
  constructor
  · rw [htr]
    rfl
  · rw [htr]
    rfl

/-- C7: on the empty message list the middleware makes no summarizer call,
forwards the original (empty) list untouched, and returns the handler's
response unchanged when the handler succeeds. -/
theorem empty_input_passthrough
    (summarize : String → Except String String)
    (handler : List Msg → Except String String) :
    (summary_middleware summarize handler []).2.summarizerCalls = []
    ∧ (summary_middleware summarize handler []).2.forwardedLists = [([] : List Msg)]
    ∧ (∀ r, handler [] = Except.ok r →
        (summary_middleware summarize handler []).1 = Outcome.ok r) := by
  unfold summary_middleware
  rw [if_pos rfl]
  cases hh : handler ([] : List Msg) with
  | ok r₀ =>
    refine ⟨rfl, rfl, fun r hr => ?_⟩
    injection hr with h
    rw [h]
  | error e =>
    refine ⟨rfl, rfl, fun r hr => ?_⟩
    injection hr

/-- Witness for C7 with a concrete succeeding handler. -/
theorem empty_input_passthrough_witness :
    (summary_middleware (fun _ => Except.error "e")
      (fun _ => Except.ok "hello") []).1 = Outcome.ok "hello" :=
  (empty_input_passthrough (fun _ => Except.error "e")
    (fun _ => Except.ok "hello")).2.2 "hello" rfl

/-- C8: above the threshold the single summarization request is the
newline-join of `contentOrStr` over the head, where `contentOrStr` returns
the message's content field when present and its string rendering when the
field is absent, so the join is total. -/
theorem text_extraction
    (g : String → String) (handler : List Msg → Except String String)
    (msgs : List Msg) (h : SUMMARY_THRESHOLD < msgs.length) :
    (summary_middleware (fun s => Except.ok (g s)) handler msgs).2.summarizerCalls
        = [summarizerPrompt (String.intercalate "\n"
            ((msgs.take (msgs.length - SUMMARY_THRESHOLD)).map contentOrStr))]
    ∧ (∀ m : Msg, ∀ c : String, m.content? = some c → contentOrStr m = c)
    ∧ (∀ m : Msg, m.content? = none → contentOrStr m = m.strRepr) := by
  have htr := summary_middleware_trace_gt (fun s => Except.ok (g s)) handler msgs h
    (g (summarizerPrompt (chunkTextOf (msgs.take (msgs.length - SUMMARY_THRESHOLD))))) rfl
  refine ⟨by rw [htr]; rfl, ?_, ?_⟩
  · intro m c hc
    rw [contentOrStr, hc]
    rfl
  · intro m hc
    rw [contentOrStr, hc]
    rfl

/-- A message whose content attribute is absent, exercising the `str(m)`
fallback. -/
def noContentMsg : Msg := ⟨Role.user, none, "<object at 0x1>"⟩

/-- Witness for C8 at the four-message history and the content-less
message. -/
theorem text_extraction_witness :
    SUMMARY_THRESHOLD < exFour.length
    ∧ contentOrStr noContentMsg = noContentMsg.strRepr :=
  ⟨by decide,
    (text_extraction (fun s => s) (fun _ => Except.ok "r") exFour
      (by decide)).2.2 noContentMsg rfl⟩

/-- C9: the caller's message list is threaded through the wrapper as
explicit state and comes back element-for-element identical: the wrapper
works on the copy made at line 31 and substitutes via `override` at
line 72, never writing to the caller's list. -/
theorem wrapper_preserves_caller_list
    (summarize : String → Except String String)
    (handler : List Msg → Except String String)
    (request : List Msg) :
    (summary_middleware_frame summarize handler request).2 = request := rfl

/-- C10: for every non-empty input of length n, exactly one list is
forwarded to the handler, of length n when n is at most the threshold and
of length threshold + 1 otherwise; in particular never more than
threshold + 1 messages reach the downstream model. -/
theorem forwarded_length_bound
    (g : String → String) (handler : List Msg → Except String String)
    (msgs : List Msg) (hne : msgs ≠ []) :
    ∃ fwd : List Msg,
      (summary_middleware (fun s => Except.ok (g s)) handler msgs).2.forwardedLists = [fwd]
      ∧ fwd.length
          = (if msgs.length ≤ SUMMARY_THRESHOLD then msgs.length else SUMMARY_THRESHOLD + 1)
      ∧ fwd.length ≤ SUMMARY_THRESHOLD + 1 := by
  by_cases h : SUMMARY_THRESHOLD < msgs.length
  · have htr := summary_middleware_trace_gt (fun s => Except.ok (g s)) handler msgs h
      (g (summarizerPrompt (chunkTextOf (msgs.take (msgs.length - SUMMARY_THRESHOLD))))) rfl
    have hlen : (msgs.drop (msgs.length - SUMMARY_THRESHOLD)).length = SUMMARY_THRESHOLD := by
      rw [List.length_drop]
      simp only [SUMMARY_THRESHOLD] at h ⊢
      omega
    refine ⟨_, by rw [htr], ?_, ?_⟩
    · rw [if_neg (Nat.not_le.mpr h), List.length_cons, hlen]
    · rw [List.length_cons, hlen]
  · have hle := Nat.not_lt.mp h
    have htr := summary_middleware_trace_le (fun s => Except.ok (g s)) handler msgs hne h
    exact ⟨msgs, by rw [htr], by rw [if_pos hle], Nat.le_succ_of_le hle⟩

/-- Witness for C10 at the four-message history. -/
theorem forwarded_length_bound_witness :
    exFour ≠ [] ∧
    ∃ fwd : List Msg,
      (summary_middleware (fun s => Except.ok s) (fun _ => Except.ok "r") exFour).2.forwardedLists
        = [fwd]
      ∧ fwd.length
          = (if exFour.length ≤ SUMMARY_THRESHOLD then exFour.length else SUMMARY_THRESHOLD + 1)
      ∧ fwd.length ≤ SUMMARY_THRESHOLD + 1 :=
  ⟨by decide,
    forwarded_length_bound (fun s => s) (fun _ => Except.ok "r") exFour (by decide)⟩
